import Mathlib

/-!
Shallow embedding of the instruction-assembly and signing service in
`src/src/main.rs` (a Solana-style HTTP service built on axum, solana-sdk,
spl-token and ed25519-dalek v1).  Bytes are modelled as `Nat` values
(< 256 on every path produced by the code), byte strings as `List Nat`,
and the JSON values built by the handlers as an explicit `Json` inductive.
The four HTTP handlers and the library functions they call
(`Pubkey::from_str`, `bs58`, base64, `system_instruction::transfer`,
`spl_token::instruction::{initialize_mint, transfer}`,
`ed25519_dalek::SecretKey::from_bytes`) are translated function by
function.  The external ed25519 curve arithmetic (public-key derivation
and signature computation) is kept as an explicit parameter `Ed25519`,
since the handler logic never inspects it.
-/

/-! ## Base-58 codec (the `bs58` crate, as used by `Pubkey::from_str`,
`Pubkey::to_string`, and the secret-key decoding in the sign handler) -/

def base58Alphabet : List Char :=
  "123456789ABCDEFGHJKLMNPQRSTUVWXYZabcdefghijkmnopqrstuvwxyz".toList

/-- Value of one base-58 character; `none` on a character outside the
alphabet (the decode error of the `bs58` crate). -/
def base58Digit (c : Char) : Option Nat :=
  let i := base58Alphabet.indexOf c
  if i < base58Alphabet.length then some i else none

/-- Big-endian byte expansion of a natural number, no leading zero bytes;
structural recursion on a fuel argument so that the kernel can evaluate it
(the fuel `n` always suffices, since a number has at most `n` digits). -/
def natToBytesBEFuel : Nat → Nat → List Nat
  | 0, _ => []
  | fuel + 1, n =>
      if n = 0 then [] else natToBytesBEFuel fuel (n / 256) ++ [n % 256]

def natToBytesBE (n : Nat) : List Nat := natToBytesBEFuel n n

/-- `bs58::decode(s).into_vec()`: every character must be in the base-58
alphabet; leading `1` characters become leading zero bytes. -/
def bs58Decode (s : String) : Option (List Nat) :=
  match s.toList.mapM base58Digit with
  | none => none
  | some ds =>
      let zeros := (s.toList.takeWhile (fun c => c = '1')).length
      let val := ds.foldl (fun acc d => acc * 58 + d) 0
      some (List.replicate zeros 0 ++ natToBytesBE val)

/-- Base-58 expansion of a natural number (most significant digit first),
with the same fuel scheme. -/
def natToBase58Fuel : Nat → Nat → List Char
  | 0, _ => []
  | fuel + 1, n =>
      if n = 0 then []
      else natToBase58Fuel fuel (n / 58) ++ [base58Alphabet.getD (n % 58) '1']

def natToBase58 (n : Nat) : List Char := natToBase58Fuel n n

def bytesToNatBE (bs : List Nat) : Nat :=
  bs.foldl (fun acc b => acc * 256 + b) 0

/-- `bs58::encode(bytes).into_string()`: leading zero bytes become `1`
characters, the rest is the big-endian base-58 expansion. -/
def bs58Encode (bs : List Nat) : String :=
  ⟨List.replicate (bs.takeWhile (fun b => b = 0)).length '1'
     ++ natToBase58 (bytesToNatBE bs)⟩

/-! ## Base-64 codec (`base64::engine::general_purpose::STANDARD`,
padded) -/

def base64Alphabet : List Char :=
  "ABCDEFGHIJKLMNOPQRSTUVWXYZabcdefghijklmnopqrstuvwxyz0123456789+/".toList

def base64Char (n : Nat) : Char := base64Alphabet.getD n 'A'

def base64Chunks : List Nat → List Char
  | [] => []
  | [a] => [base64Char (a / 4), base64Char (a % 4 * 16), '=', '=']
  | [a, b] => [base64Char (a / 4), base64Char (a % 4 * 16 + b / 16),
               base64Char (b % 16 * 4), '=']
  | a :: b :: c :: rest =>
      base64Char (a / 4) :: base64Char (a % 4 * 16 + b / 16) ::
      base64Char (b % 16 * 4 + c / 64) :: base64Char (c % 64) ::
      base64Chunks rest

def base64Encode (bs : List Nat) : String := ⟨base64Chunks bs⟩

/-! ## Fixed-width little-endian integers -/

/-- `u64::to_le_bytes` (the `amount.to_le_bytes()` / bincode `u64`
encoding): 8 bytes, least significant first. -/
def natToLE8 (n : Nat) : List Nat :=
  [n % 256, n / 256 % 256, n / 256 ^ 2 % 256, n / 256 ^ 3 % 256,
   n / 256 ^ 4 % 256, n / 256 ^ 5 % 256, n / 256 ^ 6 % 256, n / 256 ^ 7 % 256]

/-- `u32::to_le_bytes` (the bincode enum-variant tag): 4 bytes. -/
def natToLE4 (n : Nat) : List Nat :=
  [n % 256, n / 256 % 256, n / 256 ^ 2 % 256, n / 256 ^ 3 % 256]

/-- Independent little-endian decoder, used to characterise the encodings
in the theorems without restating their definitions. -/
def leBytesToNat : List Nat → Nat
  | [] => 0
  | b :: rest => b + 256 * leBytesToNat rest

/-! ## UTF-8 (Rust `str::as_bytes` on the request message) -/

def utf8EncodeChar (c : Char) : List Nat :=
  let n := c.toNat
  if n < 128 then [n]
  else if n < 2048 then [192 + n / 64, 128 + n % 64]
  else if n < 65536 then [224 + n / 4096, 128 + n / 64 % 64, 128 + n % 64]
  else [240 + n / 262144, 128 + n / 4096 % 64, 128 + n / 64 % 64, 128 + n % 64]

def utf8Bytes (s : String) : List Nat :=
  (s.toList.map utf8EncodeChar).flatten

/-! ## Data model: Pubkey, AccountMeta, Instruction -/

/-- A Solana public key: 32 bytes on every value the code constructs. -/
structure Pubkey where
  bytes : List Nat
deriving DecidableEq, Repr

/-- `Pubkey::default()`: the all-zero key. -/
def pubkeyDefault : Pubkey := ⟨List.replicate 32 0⟩

/-- `Pubkey::from_str`: reject strings longer than 44 characters, then
base-58 decode and require exactly 32 bytes. -/
def pubkeyFromStr (s : String) : Option Pubkey :=
  if s.length > 44 then none
  else
    match bs58Decode s with
    | none => none
    | some bytes => if bytes.length = 32 then some ⟨bytes⟩ else none

/-- `Pubkey::to_string` (Display): base-58 of the 32 bytes. -/
def pubkeyToString (p : Pubkey) : String := bs58Encode p.bytes

structure AccountMeta where
  pubkey : Pubkey
  is_signer : Bool
  is_writable : Bool
deriving DecidableEq, Repr

/-- `AccountMeta::new(pubkey, is_signer)`: writable. -/
def accountMetaNew (p : Pubkey) (s : Bool) : AccountMeta := ⟨p, s, true⟩

/-- `AccountMeta::new_readonly(pubkey, is_signer)`: not writable. -/
def accountMetaNewReadonly (p : Pubkey) (s : Bool) : AccountMeta := ⟨p, s, false⟩

structure Instruction where
  program_id : Pubkey
  accounts : List AccountMeta
  data : List Nat
deriving DecidableEq, Repr

/-- `spl_token::id()`: the well-known token program id, declared in the
crate as this base-58 constant. -/
def splTokenId : Pubkey :=
  ⟨(bs58Decode "TokenkegQfeZyiNwAJbNbGKPFXCWuBvf9Ss623VQ5DA").getD []⟩

/-- `solana_program::system_program::id()`: the all-zero program id. -/
def systemProgramId : Pubkey := ⟨List.replicate 32 0⟩

/-- `sysvar::rent::id()`, the rent sysvar account referenced by
`initialize_mint`. -/
def rentSysvarId : Pubkey :=
  ⟨(bs58Decode "SysvarRent111111111111111111111111111111111").getD []⟩

/-! ## Library instruction constructors -/

/-- `solana_program::system_instruction::transfer(from, to, lamports)`:
accounts `[from (signer, writable), to (writable)]`, data is the bincode
encoding of `SystemInstruction::Transfer { lamports }` — the variant tag
(`Transfer` is variant 2) as 4-byte little-endian `u32` followed by the
lamports as 8-byte little-endian `u64`. -/
def system_instruction_transfer (from_pubkey to_pubkey : Pubkey)
    (lamports : Nat) : Instruction :=
  { program_id := systemProgramId
    accounts := [accountMetaNew from_pubkey true, accountMetaNew to_pubkey false]
    data := natToLE4 2 ++ natToLE8 lamports }

/-- `TokenInstruction::pack` of a `COption<Pubkey>` field: tag byte 0 for
`None`, tag byte 1 followed by the 32 key bytes for `Some`. -/
def packPubkeyOption : Option Pubkey → List Nat
  | none => [0]
  | some p => 1 :: p.bytes

/-- `spl_token::instruction::initialize_mint`: fails unless the program id
is the spl-token id; accounts `[mint (writable), rent sysvar (readonly)]`;
data is `TokenInstruction::InitializeMint.pack()` — tag byte 0, the
decimals byte, the 32-byte mint authority, then the packed freeze-authority
option. -/
def initialize_mint (token_program_id mint_pubkey mint_authority_pubkey : Pubkey)
    (freeze_authority_pubkey : Option Pubkey) (decimals : Nat) :
    Except Unit Instruction :=
  if token_program_id = splTokenId then
    Except.ok
      { program_id := token_program_id
        accounts := [accountMetaNew mint_pubkey false,
                     accountMetaNewReadonly rentSysvarId false]
        data := 0 :: decimals :: mint_authority_pubkey.bytes
                  ++ packPubkeyOption freeze_authority_pubkey }
  else Except.error ()

/-- `spl_token::instruction::transfer`: fails unless the program id is the
spl-token id; accounts `[source (writable), destination (writable),
authority (read-only, signer iff no multisig signers)]` followed by the
multisig signers read-only; data is `TokenInstruction::Transfer.pack()` —
tag byte 3 followed by the amount as 8-byte little-endian. -/
def token_instruction_transfer (token_program_id source_pubkey
    destination_pubkey authority_pubkey : Pubkey)
    (signer_pubkeys : List Pubkey) (amount : Nat) : Except Unit Instruction :=
  if token_program_id = splTokenId then
    Except.ok
      { program_id := token_program_id
        accounts := accountMetaNew source_pubkey false ::
                    accountMetaNew destination_pubkey false ::
                    accountMetaNewReadonly authority_pubkey signer_pubkeys.isEmpty ::
                    signer_pubkeys.map (fun s => accountMetaNewReadonly s true)
        data := 3 :: natToLE8 amount }
  else Except.error ()

/-! ## The JSON values the handlers build (`serde_json::json!`) -/

inductive Json where
  | str : String → Json
  | nat : Nat → Json
  | bool : Bool → Json
  | arr : List Json → Json
  | obj : List (String × Json) → Json
deriving Repr

/-- Lookup of a key in a JSON object (`none` on a non-object or a missing
key); used by the theorems to speak about response fields. -/
def jsonGet (j : Json) (key : String) : Option Json :=
  match j with
  | Json.obj fields =>
      match fields.find? (fun f => f.1 = key) with
      | some f => some f.2
      | none => none
  | _ => none

/-- Whether a JSON value is an object that carries the given key. -/
def jsonHasKey (j : Json) (key : String) : Bool :=
  (jsonGet j key).isSome

/-! ## Request bodies -/

structure CreateTokenRequest where
  mint_authority : String
  mint : String
  decimals : Nat
deriving Repr

structure SendSolRequest where
  from_ : String
  to_ : String
  lamports : Nat
deriving Repr

structure SendTokenRequest where
  destination : String
  mint : String
  owner : String
  amount : Nat
deriving Repr

structure SignMessageRequest where
  message : String
  secret : String
deriving Repr

/-! ## Handlers.  Each handler returns (HTTP status, JSON body). -/

/-- Error body `json!({"success": false, "error": msg})`. -/
def errorBody (msg : String) : Json :=
  Json.obj [("success", Json.bool false), ("error", Json.str msg)]

/-- Helper for `initialize_token_mint`: the instruction it builds (the
freeze authority is always `Some(mint_authority)`). -/
def initializeTokenMintIx (mint_authority mint : Pubkey) (decimals : Nat) :
    Except Unit Instruction :=
  initialize_mint splTokenId mint mint_authority (some mint_authority) decimals

/-- Handler `initialize_token_mint` (`POST /token/create`): decode both
addresses, returning 400 on failure; build the initialize-mint
instruction; serialise accounts as objects with `pubkey`, `is_signer`
and `is_writable` fields.  The Rust code interpolates the decode error's
Display into the message; the model keeps the fixed prefix. -/
def initialize_token_mint (req : CreateTokenRequest) : Nat × Json :=
  match pubkeyFromStr req.mint_authority with
  | none => (400, errorBody "Invalid mint_authority")
  | some mint_authority =>
    match pubkeyFromStr req.mint with
    | none => (400, errorBody "Invalid mint")
    | some mint =>
      match initializeTokenMintIx mint_authority mint req.decimals with
      | Except.error _ => (500, errorBody "Failed to build instruction")
      | Except.ok ix =>
        (200, Json.obj [("success", Json.bool true),
          ("data", Json.obj [
            ("program_id", Json.str (pubkeyToString ix.program_id)),
            ("accounts", Json.arr (ix.accounts.map (fun meta =>
              Json.obj [("pubkey", Json.str (pubkeyToString meta.pubkey)),
                        ("is_signer", Json.bool meta.is_signer),
                        ("is_writable", Json.bool meta.is_writable)]))),
            ("instruction_data", Json.str (base64Encode ix.data))])])

/-- Helper for `transfer_spl_tokens`: the instruction it builds.  The
decoded `destination` is passed as BOTH the source and the destination of
`spl_token::instruction::transfer`; the decoded `mint` is unused; on a
builder error it falls back to an all-default zero-amount transfer. -/
def transferSplTokensIx (destination owner : Pubkey) (amount : Nat) :
    Instruction :=
  match token_instruction_transfer splTokenId destination destination owner
      [] amount with
  | Except.ok ix => ix
  | Except.error _ =>
      match token_instruction_transfer splTokenId pubkeyDefault pubkeyDefault
          pubkeyDefault [] 0 with
      | Except.ok ix => ix
      | Except.error _ => ⟨pubkeyDefault, [], []⟩

/-- Handler `transfer_spl_tokens` (`POST /send/token`): every address that
fails decoding is silently replaced by `Pubkey::default()`; accounts are
serialised with only `pubkey` and `isSigner` fields; the status is always
200. -/
def transfer_spl_tokens (req : SendTokenRequest) : Nat × Json :=
  let destination := (pubkeyFromStr req.destination).getD pubkeyDefault
  let _mint := (pubkeyFromStr req.mint).getD pubkeyDefault
  let owner := (pubkeyFromStr req.owner).getD pubkeyDefault
  let ix := transferSplTokensIx destination owner req.amount
  (200, Json.obj [("success", Json.bool true),
    ("data", Json.obj [
      ("program_id", Json.str (pubkeyToString ix.program_id)),
      ("accounts", Json.arr (ix.accounts.map (fun meta =>
        Json.obj [("pubkey", Json.str (pubkeyToString meta.pubkey)),
                  ("isSigner", Json.bool meta.is_signer)]))),
      ("instruction_data", Json.str (base64Encode ix.data))])])

/-- Helper for `transfer_sol`: the instruction it builds. -/
def transferSolIx (from_ to_ : Pubkey) (lamports : Nat) : Instruction :=
  system_instruction_transfer from_ to_ lamports

/-- Handler `transfer_sol` (`POST /send/sol`): every address that fails
decoding is silently replaced by `Pubkey::default()`; accounts are
serialised as bare pubkey strings with no flags; the status is always
200. -/
def transfer_sol (req : SendSolRequest) : Nat × Json :=
  let from_ := (pubkeyFromStr req.from_).getD pubkeyDefault
  let to_ := (pubkeyFromStr req.to_).getD pubkeyDefault
  let ix := transferSolIx from_ to_ req.lamports
  (200, Json.obj [("success", Json.bool true),
    ("data", Json.obj [
      ("program_id", Json.str (pubkeyToString ix.program_id)),
      ("accounts", Json.arr (ix.accounts.map (fun meta =>
        Json.str (pubkeyToString meta.pubkey)))),
      ("instruction_data", Json.str (base64Encode ix.data))])])

/-! ## The sign-message handler -/

/-- The external ed25519 curve arithmetic (ed25519-dalek v1).
`derivePub` is `PublicKey::from(&SecretKey)` (derive the 32-byte verifying
key from a 32-byte secret); `signBytes` is `Keypair::sign` as a function
of the secret-key bytes and the message bytes (the public half of the
keypair is itself derived from the secret, so it adds no information).
The handler logic never inspects these functions, so every theorem below
is proved for an arbitrary `Ed25519`. -/
structure Ed25519 where
  derivePub : List Nat → List Nat
  signBytes : List Nat → List Nat → List Nat

/-- `ed25519_dalek::SecretKey::from_bytes` (v1): succeeds exactly when
given `SECRET_KEY_LENGTH = 32` bytes, which it copies. -/
def secretKeyFromBytes (bytes : List Nat) : Option (List Nat) :=
  if bytes.length = 32 then some bytes else none

/-- Handler `sign_message_with_ed25519` (`POST /message/sign`): reject an
empty message or secret; base-58 decode the secret, rejecting undecodable
text; build the secret key (rejecting any length other than 32 bytes);
derive the public key from the secret and sign the exact UTF-8 bytes of
the message. -/
def sign_message_with_ed25519 (ed : Ed25519) (req : SignMessageRequest) :
    Nat × Json :=
  if req.message.isEmpty || req.secret.isEmpty then
    (400, errorBody "Missing required fields")
  else
    match bs58Decode req.secret with
    | none => (400, errorBody "Invalid base58 secret key")
    | some secret_bytes =>
      match secretKeyFromBytes secret_bytes with
      | none => (400, errorBody "Invalid secret key")
      | some secret_key =>
        let public_key := ed.derivePub secret_key
        let signature := ed.signBytes secret_key (utf8Bytes req.message)
        (200, Json.obj [("success", Json.bool true),
          ("data", Json.obj [
            ("signature", Json.str (base64Encode signature)),
            ("public_key", Json.str (bs58Encode public_key)),
            ("message", Json.str req.message)])])

/-! ## The route table (`main`) -/

inductive Handler where
  | keypair
  | tokenCreate
  | sendSol
  | sendToken
  | messageSign
deriving DecidableEq, Repr

/-- The axum router built in `main`: each endpoint is registered twice,
once with a single and once with a double leading slash. -/
def routes : List (String × Handler) :=
  [("/keypair", Handler.keypair), ("//keypair", Handler.keypair),
   ("/token/create", Handler.tokenCreate), ("//token/create", Handler.tokenCreate),
   ("/send/sol", Handler.sendSol), ("//send/sol", Handler.sendSol),
   ("/send/token", Handler.sendToken), ("//send/token", Handler.sendToken),
   ("/message/sign", Handler.messageSign), ("//message/sign", Handler.messageSign)]

/-- The ledger operations named by the specification. -/
inductive Operation where
  | generateKeypairOp
  | initializeMintOp
  | transferNativeOp
  | transferTokenOp
  | mintToOp
  | signMessageOp
deriving DecidableEq, Repr

/-- The operation each registered handler implements, read off the
instruction each one builds: `tokenCreate` packs `TokenInstruction` tag 0
(InitializeMint), `sendSol` encodes `SystemInstruction::Transfer`
(variant 2), `sendToken` packs `TokenInstruction` tag 3 (Transfer); a
mint-to handler would pack `TokenInstruction` tag 7 (MintTo), and none
does. -/
def handlerOperation : Handler → Operation
  | Handler.keypair => Operation.generateKeypairOp
  | Handler.tokenCreate => Operation.initializeMintOp
  | Handler.sendSol => Operation.transferNativeOp
  | Handler.sendToken => Operation.transferTokenOp
  | Handler.messageSign => Operation.signMessageOp

/-! ## Concrete values used by witnesses and counterexamples -/

/-- Base-58 text of the all-zero (default) pubkey. -/
def zeroAddrStr : String := "11111111111111111111111111111111"

/-- A valid address distinct from the default: last byte 1. -/
def addrStr2 : String := "11111111111111111111111111111112"

/-- A valid address distinct from the default: last byte 2. -/
def addrStr3 : String := "11111111111111111111111111111113"

def pk2 : Pubkey := ⟨List.replicate 31 0 ++ [1]⟩

def pk3 : Pubkey := ⟨List.replicate 31 0 ++ [2]⟩

/-- A concrete instantiation of the external curve arithmetic, used only
to evaluate closed statements; every theorem about the sign handler is
proved for an arbitrary `Ed25519`, since the handler never inspects it. -/
def edConcrete : Ed25519 :=
  { derivePub := fun s => s
    signBytes := fun s m => s ++ m }

/-! ## Shared helper lemmas -/

theorem pubkeyFromStr_some_length {s : String} {p : Pubkey}
    (h : pubkeyFromStr s = some p) : p.bytes.length = 32 := by
  unfold pubkeyFromStr at h
  split at h
  · exact absurd h (by simp)
  · revert h
    cases bs58Decode s with
    | none => intro h; exact absurd h (by simp)
    | some bytes =>
        intro h
        by_cases hl : bytes.length = 32
        · simp [hl] at h
          subst h
          exact hl
        · simp [hl] at h

theorem natToLE8_length (n : Nat) : (natToLE8 n).length = 8 := rfl

theorem leBytesToNat_natToLE8 (n : Nat) (h : n < 2 ^ 64) :
    leBytesToNat (natToLE8 n) = n := by
  norm_num [natToLE8, leBytesToNat]
  omega

/-! ## The claims -/

/-- C1: the claim says every build operation returns an InvalidInput error
whenever an address-typed input fails decoding, and never substitutes the
zero/default address.  The code violates this intent (stated in the spec,
and followed by the `initialize_token_mint` handler): `transfer_sol` and
`transfer_spl_tokens` replace every undecodable address by
`Pubkey::default()` and answer 200/success.  This theorem evaluates both
handlers at the failing input `"!!!"` (not base-58): decoding fails, yet
each returns status 200, `success = true`, and an account whose pubkey is
the base-58 text of the all-zero default address. -/
theorem c1_default_substituted_for_bad_address :
    pubkeyFromStr "!!!" = none ∧
    transfer_sol { from_ := "!!!", to_ := addrStr2, lamports := 5 } =
      (200, Json.obj [("success", Json.bool true),
        ("data", Json.obj [
          ("program_id", Json.str zeroAddrStr),
          ("accounts", Json.arr [Json.str zeroAddrStr, Json.str addrStr2]),
          ("instruction_data",
            Json.str (base64Encode (natToLE4 2 ++ natToLE8 5)))])]) ∧
    (transfer_spl_tokens
        { destination := "!!!", mint := addrStr2, owner := addrStr3,
          amount := 7 }).1 = 200 ∧
    jsonGet ((transfer_spl_tokens
        { destination := "!!!", mint := addrStr2, owner := addrStr3,
          amount := 7 }).2) "success" = some (Json.bool true) ∧
    (jsonGet ((transfer_spl_tokens
        { destination := "!!!", mint := addrStr2, owner := addrStr3,
          amount := 7 }).2) "data").bind (fun d => jsonGet d "accounts") =
      some (Json.arr [
        Json.obj [("pubkey", Json.str zeroAddrStr), ("isSigner", Json.bool false)],
        Json.obj [("pubkey", Json.str zeroAddrStr), ("isSigner", Json.bool false)],
        Json.obj [("pubkey", Json.str addrStr3), ("isSigner", Json.bool true)]]) := by
  refine ⟨by decide, by rfl, by decide, by rfl, by rfl⟩

/-- C3: for validly decoded `from = A`, `to = B` and amount 1000,
`transfer_sol` builds the instruction with accounts
`[{A, signer, writable}, {B, not signer, writable}]` and data equal to the
4-byte little-endian tag of `SystemInstruction::Transfer` (variant 2)
followed by an 8-byte little-endian encoding of 1000, and the handler
returns that instruction in a 200 response. -/
theorem c3_transfer_native_layout (req : SendSolRequest) (A B : Pubkey)
    (hA : pubkeyFromStr req.from_ = some A)
    (hB : pubkeyFromStr req.to_ = some B)
    (hamt : req.lamports = 1000) :
    (transferSolIx A B req.lamports).accounts =
      [{ pubkey := A, is_signer := true, is_writable := true },
       { pubkey := B, is_signer := false, is_writable := true }] ∧
    (∃ le, (transferSolIx A B req.lamports).data = [2, 0, 0, 0] ++ le ∧
       le.length = 8 ∧ leBytesToNat le = 1000) ∧
    transfer_sol req =
      (200, Json.obj [("success", Json.bool true),
        ("data", Json.obj [
          ("program_id", Json.str (pubkeyToString systemProgramId)),
          ("accounts", Json.arr [Json.str (pubkeyToString A),
                                 Json.str (pubkeyToString B)]),
          ("instruction_data",
            Json.str (base64Encode ((transferSolIx A B req.lamports).data)))])]) := by
  obtain ⟨f, t, l⟩ := req
  simp only at hA hB hamt
  subst hamt
  refine ⟨rfl, ⟨natToLE8 1000, rfl, rfl, by decide⟩, ?_⟩
  unfold transfer_sol
  rw [hA, hB]
  rfl

/-- Closed witness for `c3_transfer_native_layout` at a concrete request. -/
theorem c3_transfer_native_layout_witness :
    (transferSolIx pk2 pk3 1000).accounts =
      [{ pubkey := pk2, is_signer := true, is_writable := true },
       { pubkey := pk3, is_signer := false, is_writable := true }] ∧
    (∃ le, (transferSolIx pk2 pk3 1000).data = [2, 0, 0, 0] ++ le ∧
       le.length = 8 ∧ leBytesToNat le = 1000) ∧
    transfer_sol { from_ := addrStr2, to_ := addrStr3, lamports := 1000 } =
      (200, Json.obj [("success", Json.bool true),
        ("data", Json.obj [
          ("program_id", Json.str (pubkeyToString systemProgramId)),
          ("accounts", Json.arr [Json.str (pubkeyToString pk2),
                                 Json.str (pubkeyToString pk3)]),
          ("instruction_data",
            Json.str (base64Encode ((transferSolIx pk2 pk3 1000).data)))])]) :=
  c3_transfer_native_layout
    { from_ := addrStr2, to_ := addrStr3, lamports := 1000 } pk2 pk3
    (by decide) (by decide) rfl

/-- Evaluation of the token-transfer builder: the program-id check always
passes (the handler passes `spl_token::id()` itself), so the fallback
branch is dead and the instruction is the one built from the handler's
arguments — `destination` in both the source and the destination slot. -/
theorem transferSplTokensIx_eq (destination owner : Pubkey) (amount : Nat) :
    transferSplTokensIx destination owner amount =
      { program_id := splTokenId
        accounts := [{ pubkey := destination, is_signer := false, is_writable := true },
                     { pubkey := destination, is_signer := false, is_writable := true },
                     { pubkey := owner, is_signer := true, is_writable := false }]
        data := 3 :: natToLE8 amount } := by
  unfold transferSplTokensIx token_instruction_transfer
  rw [if_pos rfl]
  rfl

/-- Evaluation of the initialize-mint builder: the program-id check always
passes, so the result is always `Except.ok` with the fixed account pair
and the packed data. -/
theorem initializeTokenMintIx_eq (authority mint : Pubkey) (decimals : Nat) :
    initializeTokenMintIx authority mint decimals =
      Except.ok
        { program_id := splTokenId
          accounts := [{ pubkey := mint, is_signer := false, is_writable := true },
                       { pubkey := rentSysvarId, is_signer := false, is_writable := false }]
          data := 0 :: decimals :: (authority.bytes ++ 1 :: authority.bytes) } := by
  unfold initializeTokenMintIx initialize_mint
  rw [if_pos rfl]
  rfl

/-- C2 counterexample: the claim describes a transfer built from a
distinct `source` input, but the endpoint has no source input at all —
for the concrete destination `pk2` and owner `pk3`, the first (source)
account slot of the built instruction holds the destination `pk2`,
identical to the second slot, so no account list of the claimed form
`[source, destination, owner]` with an independently supplied source is
produced. -/
theorem c2_counterexample_source_slot_is_destination :
    pubkeyFromStr addrStr2 = some pk2 ∧
    pubkeyFromStr addrStr3 = some pk3 ∧
    pk2 ≠ pk3 ∧
    (transferSplTokensIx pk2 pk3 42).accounts =
      [{ pubkey := pk2, is_signer := false, is_writable := true },
       { pubkey := pk2, is_signer := false, is_writable := true },
       { pubkey := pk3, is_signer := true, is_writable := false }] := by
  refine ⟨by decide, by decide, by decide, ?_⟩
  rw [transferSplTokensIx_eq]

/-- C2 amended: the token-transfer endpoint takes `destination`, `mint`,
`owner` and `amount` (no source; the decoded mint is unused); the built
instruction's account list is `[destination (writable, not signer),
destination (writable, not signer), owner (read-only, signer)]` — the
destination fills both the source and the destination slot — and its data
is the token-transfer tag byte 3 followed by the amount as 8-byte
little-endian; the response serialises the three accounts with `pubkey`
and `isSigner` fields. -/
theorem c2_transfer_token_actual_layout (req : SendTokenRequest)
    (D M O : Pubkey)
    (hD : pubkeyFromStr req.destination = some D)
    (hM : pubkeyFromStr req.mint = some M)
    (hO : pubkeyFromStr req.owner = some O)
    (hamt : req.amount < 2 ^ 64) :
    transferSplTokensIx D O req.amount =
      { program_id := splTokenId
        accounts := [{ pubkey := D, is_signer := false, is_writable := true },
                     { pubkey := D, is_signer := false, is_writable := true },
                     { pubkey := O, is_signer := true, is_writable := false }]
        data := 3 :: natToLE8 req.amount } ∧
    (natToLE8 req.amount).length = 8 ∧
    leBytesToNat (natToLE8 req.amount) = req.amount ∧
    transfer_spl_tokens req =
      (200, Json.obj [("success", Json.bool true),
        ("data", Json.obj [
          ("program_id", Json.str (pubkeyToString splTokenId)),
          ("accounts", Json.arr [
            Json.obj [("pubkey", Json.str (pubkeyToString D)),
                      ("isSigner", Json.bool false)],
            Json.obj [("pubkey", Json.str (pubkeyToString D)),
                      ("isSigner", Json.bool false)],
            Json.obj [("pubkey", Json.str (pubkeyToString O)),
                      ("isSigner", Json.bool true)]]),
          ("instruction_data",
            Json.str (base64Encode (3 :: natToLE8 req.amount)))])]) := by
  obtain ⟨d, m, o, a⟩ := req
  simp only at hD hM hO hamt
  refine ⟨transferSplTokensIx_eq D O a, rfl, leBytesToNat_natToLE8 a hamt, ?_⟩
  unfold transfer_spl_tokens
  rw [hD, hM, hO]
  simp only [Option.getD_some]
  rw [transferSplTokensIx_eq]
  rfl

/-- Closed witness for `c2_transfer_token_actual_layout` at a concrete
request. -/
theorem c2_transfer_token_actual_layout_witness :
    transferSplTokensIx pk2 pk3 42 =
      { program_id := splTokenId
        accounts := [{ pubkey := pk2, is_signer := false, is_writable := true },
                     { pubkey := pk2, is_signer := false, is_writable := true },
                     { pubkey := pk3, is_signer := true, is_writable := false }]
        data := 3 :: natToLE8 42 } ∧
    leBytesToNat (natToLE8 42) = 42 :=
  have h := c2_transfer_token_actual_layout
    { destination := addrStr2, mint := zeroAddrStr, owner := addrStr3, amount := 42 }
    pk2 pubkeyDefault pk3 (by decide) (by decide) (by decide) (by decide)
  ⟨h.1, h.2.2.1⟩

/-- C4 counterexample: a successful `transfer_sol` build (status 200,
`success = true`) whose accounts entries are bare pubkey strings — they
are not objects and carry neither a signer flag nor a writable flag,
under either naming convention. -/
theorem c4_counterexample_accounts_without_flags :
    (transfer_sol { from_ := addrStr2, to_ := addrStr3, lamports := 5 }).1 = 200 ∧
    jsonGet (transfer_sol { from_ := addrStr2, to_ := addrStr3, lamports := 5 }).2
        "success" = some (Json.bool true) ∧
    (jsonGet (transfer_sol { from_ := addrStr2, to_ := addrStr3, lamports := 5 }).2
        "data").bind (fun d => jsonGet d "accounts") =
      some (Json.arr [Json.str addrStr2, Json.str addrStr3]) ∧
    jsonHasKey (Json.str addrStr2) "isSigner" = false ∧
    jsonHasKey (Json.str addrStr2) "is_signer" = false ∧
    jsonHasKey (Json.str addrStr2) "isWritable" = false ∧
    jsonHasKey (Json.str addrStr2) "is_writable" = false := by
  refine ⟨by decide, by rfl, by rfl, by rfl, by rfl, by rfl, by rfl⟩

/-- C4 amended: only `initialize_token_mint` serialises its accounts as
objects carrying the pubkey together with both flags (`is_signer`,
`is_writable`); `transfer_spl_tokens` serialises `pubkey` and `isSigner`
but no writable flag; `transfer_sol` serialises bare pubkey strings with
no flags at all; no mint-to endpoint exists. -/
theorem c4_accounts_shape_by_endpoint
    (reqI : CreateTokenRequest) (authority mint : Pubkey)
    (hIa : pubkeyFromStr reqI.mint_authority = some authority)
    (hIm : pubkeyFromStr reqI.mint = some mint)
    (reqT : SendTokenRequest) (D M O : Pubkey)
    (hTd : pubkeyFromStr reqT.destination = some D)
    (hTm : pubkeyFromStr reqT.mint = some M)
    (hTo : pubkeyFromStr reqT.owner = some O)
    (reqS : SendSolRequest) (A B : Pubkey)
    (hSa : pubkeyFromStr reqS.from_ = some A)
    (hSb : pubkeyFromStr reqS.to_ = some B) :
    (jsonGet (initialize_token_mint reqI).2 "data").bind
        (fun d => jsonGet d "accounts") =
      some (Json.arr [
        Json.obj [("pubkey", Json.str (pubkeyToString mint)),
                  ("is_signer", Json.bool false),
                  ("is_writable", Json.bool true)],
        Json.obj [("pubkey", Json.str (pubkeyToString rentSysvarId)),
                  ("is_signer", Json.bool false),
                  ("is_writable", Json.bool false)]]) ∧
    (jsonGet (transfer_spl_tokens reqT).2 "data").bind
        (fun d => jsonGet d "accounts") =
      some (Json.arr [
        Json.obj [("pubkey", Json.str (pubkeyToString D)),
                  ("isSigner", Json.bool false)],
        Json.obj [("pubkey", Json.str (pubkeyToString D)),
                  ("isSigner", Json.bool false)],
        Json.obj [("pubkey", Json.str (pubkeyToString O)),
                  ("isSigner", Json.bool true)]]) ∧
    (jsonGet (transfer_sol reqS).2 "data").bind
        (fun d => jsonGet d "accounts") =
      some (Json.arr [Json.str (pubkeyToString A),
                      Json.str (pubkeyToString B)]) := by
  refine ⟨?_, ?_, ?_⟩
  · obtain ⟨ma, mi, dec⟩ := reqI
    simp only at hIa hIm
    unfold initialize_token_mint
    rw [hIa, hIm]
    dsimp only
    rw [initializeTokenMintIx_eq]
    rfl
  · obtain ⟨d, m, o, a⟩ := reqT
    simp only at hTd hTm hTo
    unfold transfer_spl_tokens
    rw [hTd, hTm, hTo]
    simp only [Option.getD_some]
    rw [transferSplTokensIx_eq]
    rfl
  · obtain ⟨f, t, l⟩ := reqS
    simp only at hSa hSb
    unfold transfer_sol
    rw [hSa, hSb]
    rfl

/-- Closed witness for `c4_accounts_shape_by_endpoint` at concrete
requests. -/
theorem c4_accounts_shape_by_endpoint_witness :
    (jsonGet (initialize_token_mint
        { mint_authority := addrStr2, mint := addrStr3, decimals := 9 }).2
        "data").bind (fun d => jsonGet d "accounts") =
      some (Json.arr [
        Json.obj [("pubkey", Json.str (pubkeyToString pk3)),
                  ("is_signer", Json.bool false),
                  ("is_writable", Json.bool true)],
        Json.obj [("pubkey", Json.str (pubkeyToString rentSysvarId)),
                  ("is_signer", Json.bool false),
                  ("is_writable", Json.bool false)]]) ∧
    (jsonGet (transfer_sol
        { from_ := addrStr2, to_ := addrStr3, lamports := 5 }).2
        "data").bind (fun d => jsonGet d "accounts") =
      some (Json.arr [Json.str (pubkeyToString pk2),
                      Json.str (pubkeyToString pk3)]) :=
  have h := c4_accounts_shape_by_endpoint
    { mint_authority := addrStr2, mint := addrStr3, decimals := 9 } pk2 pk3
    (by decide) (by decide)
    { destination := addrStr2, mint := zeroAddrStr, owner := addrStr3, amount := 42 }
    pk2 pubkeyDefault pk3 (by decide) (by decide) (by decide)
    { from_ := addrStr2, to_ := addrStr3, lamports := 5 } pk2 pk3
    (by decide) (by decide)
  ⟨h.1, h.2.2⟩

/-- Base-58 text (64 `1` characters) decoding to 64 zero bytes: a 64-byte
secret whose trailing 32 bytes match any derivation that fixes the zero
seed. -/
def secret64Str : String :=
  "1111111111111111111111111111111111111111111111111111111111111111"

/-- Shared evaluation lemma: on a non-empty message and secret whose
base-58 decoding has exactly 32 bytes, the sign handler succeeds, derives
the public key from those bytes and signs the exact UTF-8 bytes of the
message. -/
theorem signMessage_ok (ed : Ed25519) (req : SignMessageRequest)
    (bytes : List Nat)
    (hm : req.message.isEmpty = false) (hs : req.secret.isEmpty = false)
    (hdec : bs58Decode req.secret = some bytes) (hlen : bytes.length = 32) :
    sign_message_with_ed25519 ed req =
      (200, Json.obj [("success", Json.bool true),
        ("data", Json.obj [
          ("signature",
            Json.str (base64Encode (ed.signBytes bytes (utf8Bytes req.message)))),
          ("public_key", Json.str (bs58Encode (ed.derivePub bytes))),
          ("message", Json.str req.message)])]) := by
  obtain ⟨msg, sec⟩ := req
  simp only at hm hs hdec
  unfold sign_message_with_ed25519
  rw [hm, hs]
  simp only [Bool.or_self, Bool.false_eq_true, if_false]
  rw [hdec]
  dsimp only
  unfold secretKeyFromBytes
  rw [if_pos hlen]

/-- Shared evaluation lemma: on a non-empty message and secret whose
base-58 decoding has a byte length other than 32 (in particular any
64-byte secret), the sign handler answers 400 with the invalid-secret
error. -/
theorem signMessage_badlen (ed : Ed25519) (req : SignMessageRequest)
    (bytes : List Nat)
    (hm : req.message.isEmpty = false) (hs : req.secret.isEmpty = false)
    (hdec : bs58Decode req.secret = some bytes) (hlen : bytes.length ≠ 32) :
    sign_message_with_ed25519 ed req = (400, errorBody "Invalid secret key") := by
  obtain ⟨msg, sec⟩ := req
  simp only at hm hs hdec
  unfold sign_message_with_ed25519
  rw [hm, hs]
  simp only [Bool.or_self, Bool.false_eq_true, if_false]
  rw [hdec]
  dsimp only
  unfold secretKeyFromBytes
  rw [if_neg hlen]

set_option maxRecDepth 4096 in
/-- C5 counterexample: the claim implies a 64-byte secret whose trailing
32 bytes equal the verifying key re-derived from its leading 32 bytes is
accepted.  The concrete secret below decodes to 64 zero bytes, whose
trailing half equals `edConcrete.derivePub` of the leading half, yet the
handler rejects it with the invalid-secret error: `SecretKey::from_bytes`
accepts only 32 bytes and the code performs no 64-byte consistency check
(the handler never calls the derivation on the 64-byte path, so the same
rejection holds for every derivation function). -/
theorem c5_counterexample_matching_64_byte_secret_rejected :
    bs58Decode secret64Str = some (List.replicate 64 0) ∧
    (List.replicate 64 0).drop 32 =
      edConcrete.derivePub ((List.replicate 64 0).take 32) ∧
    sign_message_with_ed25519 edConcrete
        { message := "hello", secret := secret64Str } =
      (400, errorBody "Invalid secret key") := by
  refine ⟨by decide, by decide, by rfl⟩

/-- C5 amended: a secret that decodes to exactly 32 bytes has the
verifying key derived from those bytes; every other decoded length —
including every 64-byte secret, whether or not its trailing 32 bytes
match the re-derived verifying key — is rejected as invalid input, for
every derivation function. -/
theorem c5_secret_length_dispatch (ed : Ed25519) (req : SignMessageRequest)
    (bytes : List Nat)
    (hm : req.message.isEmpty = false) (hs : req.secret.isEmpty = false)
    (hdec : bs58Decode req.secret = some bytes) :
    (bytes.length ≠ 32 →
      sign_message_with_ed25519 ed req = (400, errorBody "Invalid secret key")) ∧
    (bytes.length = 32 →
      sign_message_with_ed25519 ed req =
        (200, Json.obj [("success", Json.bool true),
          ("data", Json.obj [
            ("signature",
              Json.str (base64Encode (ed.signBytes bytes (utf8Bytes req.message)))),
            ("public_key", Json.str (bs58Encode (ed.derivePub bytes))),
            ("message", Json.str req.message)])])) :=
  ⟨fun hne => signMessage_badlen ed req bytes hm hs hdec hne,
   fun hlen => signMessage_ok ed req bytes hm hs hdec hlen⟩

/-- Closed witness for `c5_secret_length_dispatch`: a 32-byte secret is
accepted with the key derived from it; the 64-byte secret of the
counterexample is covered by the other branch. -/
theorem c5_secret_length_dispatch_witness :
    sign_message_with_ed25519 edConcrete
        { message := "m", secret := zeroAddrStr } =
      (200, Json.obj [("success", Json.bool true),
        ("data", Json.obj [
          ("signature",
            Json.str (base64Encode
              (edConcrete.signBytes (List.replicate 32 0) (utf8Bytes "m")))),
          ("public_key",
            Json.str (bs58Encode (edConcrete.derivePub (List.replicate 32 0)))),
          ("message", Json.str "m")])]) :=
  (c5_secret_length_dispatch edConcrete
    { message := "m", secret := zeroAddrStr } (List.replicate 32 0)
    (by rfl) (by rfl) (by decide)).2 (by decide)

/-- C6: whenever the message or the secret is empty, the sign handler
answers 400 with the missing-fields error body, and the response carries
no data, signature, public key or message field — no partial output. -/
theorem c6_empty_input_rejected (ed : Ed25519) (req : SignMessageRequest)
    (h : (req.message.isEmpty || req.secret.isEmpty) = true) :
    sign_message_with_ed25519 ed req =
      (400, errorBody "Missing required fields") ∧
    jsonHasKey (sign_message_with_ed25519 ed req).2 "data" = false ∧
    jsonHasKey (sign_message_with_ed25519 ed req).2 "signature" = false ∧
    jsonHasKey (sign_message_with_ed25519 ed req).2 "public_key" = false ∧
    jsonHasKey (sign_message_with_ed25519 ed req).2 "message" = false := by
  have he : sign_message_with_ed25519 ed req =
      (400, errorBody "Missing required fields") := by
    unfold sign_message_with_ed25519
    rw [if_pos h]
  refine ⟨he, ?_, ?_, ?_, ?_⟩ <;> rw [he] <;> rfl

/-- Closed witness for `c6_empty_input_rejected` at an empty message. -/
theorem c6_empty_input_rejected_witness :
    sign_message_with_ed25519 edConcrete { message := "", secret := zeroAddrStr } =
      (400, errorBody "Missing required fields") ∧
    jsonHasKey (sign_message_with_ed25519 edConcrete
      { message := "", secret := zeroAddrStr }).2 "data" = false :=
  have h := c6_empty_input_rejected edConcrete
    { message := "", secret := zeroAddrStr } (by rfl)
  ⟨h.1, h.2.1⟩

/-- C7: for a fixed signing primitive, the handler's signature on a valid
request is exactly the primitive applied to the decoded secret-key bytes
and the untransformed UTF-8 bytes of the message, and two invocations on
requests with identical message and secret produce identical responses. -/
theorem c7_sign_deterministic_exact_bytes (ed : Ed25519)
    (req req2 : SignMessageRequest) (bytes : List Nat)
    (hm : req.message.isEmpty = false) (hs : req.secret.isEmpty = false)
    (hdec : bs58Decode req.secret = some bytes) (hlen : bytes.length = 32)
    (hm2 : req2.message = req.message) (hs2 : req2.secret = req.secret) :
    sign_message_with_ed25519 ed req =
      (200, Json.obj [("success", Json.bool true),
        ("data", Json.obj [
          ("signature",
            Json.str (base64Encode (ed.signBytes bytes (utf8Bytes req.message)))),
          ("public_key", Json.str (bs58Encode (ed.derivePub bytes))),
          ("message", Json.str req.message)])]) ∧
    sign_message_with_ed25519 ed req2 = sign_message_with_ed25519 ed req := by
  refine ⟨signMessage_ok ed req bytes hm hs hdec hlen, ?_⟩
  obtain ⟨m2, s2⟩ := req2
  obtain ⟨m1, s1⟩ := req
  simp only at hm2 hs2
  rw [hm2, hs2]

/-- Closed witness for `c7_sign_deterministic_exact_bytes` at a concrete
request pair. -/
theorem c7_sign_deterministic_exact_bytes_witness :
    sign_message_with_ed25519 edConcrete
        { message := "hi", secret := zeroAddrStr } =
      (200, Json.obj [("success", Json.bool true),
        ("data", Json.obj [
          ("signature",
            Json.str (base64Encode
              (edConcrete.signBytes (List.replicate 32 0) (utf8Bytes "hi")))),
          ("public_key",
            Json.str (bs58Encode (edConcrete.derivePub (List.replicate 32 0)))),
          ("message", Json.str "hi")])]) ∧
    sign_message_with_ed25519 edConcrete { message := "hi", secret := zeroAddrStr } =
      sign_message_with_ed25519 edConcrete { message := "hi", secret := zeroAddrStr } :=
  c7_sign_deterministic_exact_bytes edConcrete
    { message := "hi", secret := zeroAddrStr }
    { message := "hi", secret := zeroAddrStr }
    (List.replicate 32 0) (by rfl) (by rfl) (by decide) (by decide) rfl rfl

/-- C8: for decoded mint authority and mint and any decimals byte, the
initialize-mint build succeeds with accounts exactly
`[mint (writable), rent sysvar (read-only)]`, the authority appears
embedded in the data (not as an account), and the second data byte is the
decimals value; the handler wraps the instruction in a 200 response. -/
theorem c8_initialize_mint_layout (req : CreateTokenRequest)
    (authority mint : Pubkey)
    (ha : pubkeyFromStr req.mint_authority = some authority)
    (hm : pubkeyFromStr req.mint = some mint)
    (hdec : req.decimals < 256) :
    initializeTokenMintIx authority mint req.decimals =
      Except.ok
        { program_id := splTokenId
          accounts := [{ pubkey := mint, is_signer := false, is_writable := true },
                       { pubkey := rentSysvarId, is_signer := false,
                         is_writable := false }]
          data := 0 :: req.decimals :: (authority.bytes ++ 1 :: authority.bytes) } ∧
    (0 :: req.decimals :: (authority.bytes ++ 1 :: authority.bytes)).get? 1 =
      some req.decimals ∧
    List.IsInfix authority.bytes
      (0 :: req.decimals :: (authority.bytes ++ 1 :: authority.bytes)) ∧
    initialize_token_mint req =
      (200, Json.obj [("success", Json.bool true),
        ("data", Json.obj [
          ("program_id", Json.str (pubkeyToString splTokenId)),
          ("accounts", Json.arr [
            Json.obj [("pubkey", Json.str (pubkeyToString mint)),
                      ("is_signer", Json.bool false),
                      ("is_writable", Json.bool true)],
            Json.obj [("pubkey", Json.str (pubkeyToString rentSysvarId)),
                      ("is_signer", Json.bool false),
                      ("is_writable", Json.bool false)]]),
          ("instruction_data",
            Json.str (base64Encode
              (0 :: req.decimals :: (authority.bytes ++ 1 :: authority.bytes))))])]) := by
  refine ⟨initializeTokenMintIx_eq authority mint req.decimals, rfl,
    ⟨[0, req.decimals], 1 :: authority.bytes, by simp⟩, ?_⟩
  obtain ⟨ma, mi, dec⟩ := req
  simp only at ha hm
  unfold initialize_token_mint
  rw [ha, hm]
  dsimp only
  rw [initializeTokenMintIx_eq]
  rfl

/-- Closed witness for `c8_initialize_mint_layout` with decimals 9: the
second data byte is 9. -/
theorem c8_initialize_mint_layout_witness :
    initializeTokenMintIx pk2 pk3 9 =
      Except.ok
        { program_id := splTokenId
          accounts := [{ pubkey := pk3, is_signer := false, is_writable := true },
                       { pubkey := rentSysvarId, is_signer := false,
                         is_writable := false }]
          data := 0 :: 9 :: (pk2.bytes ++ 1 :: pk2.bytes) } ∧
    (0 :: 9 :: (pk2.bytes ++ 1 :: pk2.bytes)).get? 1 = some 9 :=
  have h := c8_initialize_mint_layout
    { mint_authority := addrStr2, mint := addrStr3, decimals := 9 } pk2 pk3
    (by decide) (by decide) (by decide)
  ⟨h.1, h.2.1⟩

/-- C10: every successful initialize-mint build carries the freeze
authority: the packed option flag is 1 (never the omitted form 0) and the
32 bytes that follow it are exactly the supplied mint authority — the
builder is always called with `Some(mint_authority)`, so no input
produces an omitted or different freeze authority. -/
theorem c10_freeze_authority_is_mint_authority (req : CreateTokenRequest)
    (authority mint : Pubkey) (ix : Instruction)
    (ha : pubkeyFromStr req.mint_authority = some authority)
    (hm : pubkeyFromStr req.mint = some mint)
    (hix : initializeTokenMintIx authority mint req.decimals = Except.ok ix) :
    ix.data = 0 :: req.decimals ::
      (authority.bytes ++ packPubkeyOption (some authority)) ∧
    packPubkeyOption (some authority) = 1 :: authority.bytes ∧
    ix.data.drop 34 = 1 :: authority.bytes := by
  have hlen : authority.bytes.length = 32 := pubkeyFromStr_some_length ha
  rw [initializeTokenMintIx_eq] at hix
  injection hix with h
  subst h
  refine ⟨rfl, rfl, ?_⟩
  show ((0 :: req.decimals :: authority.bytes) ++ (1 :: authority.bytes)).drop 34 =
    1 :: authority.bytes
  have h34 : (0 :: req.decimals :: authority.bytes).length = 34 := by
    simp [hlen]
  rw [← h34, List.drop_left]

/-- Closed witness for `c10_freeze_authority_is_mint_authority` at a
concrete build. -/
theorem c10_freeze_authority_is_mint_authority_witness :
    (0 :: 9 :: (pk2.bytes ++ 1 :: pk2.bytes) : List Nat).drop 34 = 1 :: pk2.bytes :=
  (c10_freeze_authority_is_mint_authority
    { mint_authority := addrStr2, mint := addrStr3, decimals := 9 } pk2 pk3
    { program_id := splTokenId
      accounts := [{ pubkey := pk3, is_signer := false, is_writable := true },
                   { pubkey := rentSysvarId, is_signer := false,
                     is_writable := false }]
      data := 0 :: 9 :: (pk2.bytes ++ 1 :: pk2.bytes) }
    (by decide) (by decide) (by rfl)).2.2

/-- C9 counterexample: the router registers exactly the keypair, mint
initialization, native transfer, token transfer and message signing
endpoints (each twice); no route's handler implements a mint-to
operation. -/
theorem c9_counterexample_no_mint_to_route :
    routes.map Prod.fst =
      ["/keypair", "//keypair", "/token/create", "//token/create",
       "/send/sol", "//send/sol", "/send/token", "//send/token",
       "/message/sign", "//message/sign"] ∧
    Operation.mintToOp ∉ routes.map (fun r => handlerOperation r.2) := by
  refine ⟨rfl, by decide⟩

/-- C9 amended: the service exposes no mint-to operation.  Its route
table is exactly the five endpoints above, and every instruction its
handlers can build carries the initialize-mint tag 0, the system-transfer
variant tag 2, or the token-transfer tag 3 — never the spl-token mint-to
tag 7. -/
theorem c9_no_mint_to_operation :
    routes.map Prod.fst =
      ["/keypair", "//keypair", "/token/create", "//token/create",
       "/send/sol", "//send/sol", "/send/token", "//send/token",
       "/message/sign", "//message/sign"] ∧
    Operation.mintToOp ∉ routes.map (fun r => handlerOperation r.2) ∧
    (∀ destination owner amount,
      (transferSplTokensIx destination owner amount).data.head? = some 3) ∧
    (∀ authority mint decimals ix,
      initializeTokenMintIx authority mint decimals = Except.ok ix →
        ix.data.head? = some 0) ∧
    (∀ from_pk to_pk lamports,
      (transferSolIx from_pk to_pk lamports).data.take 4 = [2, 0, 0, 0]) := by
  refine ⟨rfl, by decide, ?_, ?_, ?_⟩
  · intro destination owner amount
    rw [transferSplTokensIx_eq]
    rfl
  · intro authority mint decimals ix h
    rw [initializeTokenMintIx_eq] at h
    injection h with h
    subst h
    rfl
  · intro from_pk to_pk lamports
    rfl

/-- Closed witness for `c9_no_mint_to_operation` at concrete builds. -/
theorem c9_no_mint_to_operation_witness :
    (transferSplTokensIx pk2 pk3 9).data.head? = some 3 ∧
    (transferSolIx pk2 pk3 9).data.take 4 = [2, 0, 0, 0] :=
  ⟨c9_no_mint_to_operation.2.2.1 pk2 pk3 9,
   c9_no_mint_to_operation.2.2.2.2 pk2 pk3 9⟩
